import Mathlib

/-!
Verification of the webown scraping pipeline against its specification.

The development shallowly embeds the Python source under `src/`:
dictionaries become association lists over a `PyVal` value type, the
SQLAlchemy `listings` table becomes a list of `Row` records, raised
exceptions become `Except` values, and `datetime` timestamps become
integers (seconds).  Every definition is translated from the source file
named in its doc comment.
-/

namespace Webown

/-- Model of the Python values that flow through listing dictionaries:
`None`, strings, numbers (modelled as rationals) and booleans. -/
inductive PyVal where
  | none : PyVal
  | str : String → PyVal
  | num : ℚ → PyVal
  | bool : Bool → PyVal
deriving DecidableEq, Repr

/-- A Python `dict` with string keys, modelled as an association list in
insertion order (first binding of a key wins, as keys are unique in the
dictionaries the program builds). -/
abbrev Dict := List (String × PyVal)

/-- Dictionary lookup: `d[k]` as an `Option` (`Option.none` models a missing key). -/
def dictGet? : Dict → String → Option PyVal
  | [], _ => Option.none
  | (k', v) :: rest, k => if k = k' then some v else dictGet? rest k

/-- Python `d.get(k, default)`. -/
def dictGetD (d : Dict) (k : String) (dflt : PyVal) : PyVal :=
  (dictGet? d k).getD dflt

/-- Python `d.get(k)` (default `None`). -/
def dictGet (d : Dict) (k : String) : PyVal :=
  dictGetD d k PyVal.none

/-- Python `list(d.keys())`. -/
def dictKeys (d : Dict) : List String :=
  d.map Prod.fst

/-- Python `str.replace` on character lists: replaces non-overlapping
occurrences of `pat` left to right (the program never calls it with an
empty pattern, on which this model copies the input unchanged).  The
fuel argument keeps the recursion structural; `pyReplace` supplies the
input length, which suffices since every step consumes a character. -/
def replaceChars (pat rep : List Char) : Nat → List Char → List Char
  | _, [] => []
  | 0, l => l
  | fuel + 1, c :: rest =>
    if pat.isPrefixOf (c :: rest) ∧ pat ≠ [] then
      rep ++ replaceChars pat rep fuel (rest.drop (pat.length - 1))
    else
      c :: replaceChars pat rep fuel rest

/-- Python `s.replace(pat, rep)`. -/
def pyReplace (s pat rep : String) : String :=
  String.mk (replaceChars pat.toList rep.toList s.toList.length s.toList)

/-- Value of an ASCII digit string read in base 10. -/
def digitsToNat (cs : List Char) : Nat :=
  cs.foldl (fun a c => a * 10 + (c.toNat - 48)) 0

/-- Core of Python `float(s)` on an unsigned literal: digits with at most
one decimal point and at least one digit.  Exponents, `inf`, `nan` and
underscores are rejected by this model; none of the strings the scrapers
produce use them. -/
def pyFloatCore (cs : List Char) : Option ℚ :=
  let ip := cs.takeWhile Char.isDigit
  let rest := cs.dropWhile Char.isDigit
  match rest with
  | [] => if ip = [] then Option.none else some ((digitsToNat ip : ℚ))
  | '.' :: rest2 =>
    let fp := rest2.takeWhile Char.isDigit
    let rest3 := rest2.dropWhile Char.isDigit
    if rest3 = [] ∧ ¬(ip = [] ∧ fp = []) then
      some ((digitsToNat ip : ℚ) + (digitsToNat fp : ℚ) / ((10 : ℚ) ^ fp.length))
    else Option.none
  | _ => Option.none

/-- Python `float(s)`: strips surrounding whitespace, reads an optional
sign and then an unsigned decimal literal; yields `Option.none` where
Python raises `ValueError`. -/
def pyFloat? (s : String) : Option ℚ :=
  let cs := ((s.toList.dropWhile Char.isWhitespace).reverse.dropWhile Char.isWhitespace).reverse
  match cs with
  | '+' :: rest => pyFloatCore rest
  | '-' :: rest => (pyFloatCore rest).map (fun q => -q)
  | rest => pyFloatCore rest

/-- LeboncoinScraper._extract_price (src/app/scrapers/leboncoin.py):
strips the euro sign, spaces and commas, then applies `float`, returning
`Option.none` on `ValueError`. -/
def leboncoin_extract_price (price_text : String) : Option ℚ :=
  let price_clean := pyReplace (pyReplace (pyReplace price_text "€" "") " " "") "," "."
  pyFloat? price_clean

/-- CarteColocScraper._extract_price (src/app/scrapers/carte_coloc.py):
also strips the `/mois` suffix before parsing. -/
def carte_coloc_extract_price (price_text : String) : Option ℚ :=
  let price_clean :=
    pyReplace (pyReplace (pyReplace (pyReplace price_text "€" "") "/mois" "") " " "") "," "."
  pyFloat? price_clean

/-- BaseScraper.normalize_listing (src/app/scrapers/base.py): builds the
canonical dictionary from an incomplete listing dictionary, defaulting
string fields to the empty string, optional fields to `None`, `furnished`
to `False` and `images` to the string `"[]"`. -/
def normalize_listing (source_name : String) (listing : Dict) : Dict :=
  [ ("source", PyVal.str source_name),
    ("source_id", dictGetD listing "source_id" (PyVal.str "")),
    ("source_url", dictGetD listing "source_url" (PyVal.str "")),
    ("title", dictGetD listing "title" (PyVal.str "")),
    ("description", dictGetD listing "description" (PyVal.str "")),
    ("price", dictGet listing "price"),
    ("surface", dictGet listing "surface"),
    ("rooms", dictGet listing "rooms"),
    ("bedrooms", dictGet listing "bedrooms"),
    ("city", dictGet listing "city"),
    ("postal_code", dictGet listing "postal_code"),
    ("address", dictGet listing "address"),
    ("latitude", dictGet listing "latitude"),
    ("longitude", dictGet listing "longitude"),
    ("property_type", dictGet listing "property_type"),
    ("energy_class", dictGet listing "energy_class"),
    ("furnished", dictGetD listing "furnished" (PyVal.bool false)),
    ("images", dictGetD listing "images" (PyVal.str "[]")) ]

/-- The eighteen keys `normalize_listing` emits, in order. -/
def canonicalKeys : List String :=
  [ "source", "source_id", "source_url", "title", "description", "price",
    "surface", "rooms", "bedrooms", "city", "postal_code", "address",
    "latitude", "longitude", "property_type", "energy_class", "furnished",
    "images" ]

/-- A persisted row of the `listings` table (src/app/models.py): the
eighteen data columns hold the Python values the upsert stored, and the
lifecycle columns `is_active`, `first_seen`, `last_updated` (managed by
column defaults and `onupdate`) and the surrogate `id` are typed.
Timestamps are seconds as integers. -/
structure Row where
  id : Nat
  source : PyVal
  source_id : PyVal
  source_url : PyVal
  title : PyVal
  description : PyVal
  price : PyVal
  surface : PyVal
  rooms : PyVal
  bedrooms : PyVal
  city : PyVal
  postal_code : PyVal
  address : PyVal
  latitude : PyVal
  longitude : PyVal
  property_type : PyVal
  energy_class : PyVal
  furnished : PyVal
  images : PyVal
  is_active : Bool
  first_seen : Int
  last_updated : Int
deriving DecidableEq, Repr

/-- A canonical listing record: the shape `normalize_listing` produces,
as a structure (one field per canonical key). -/
structure CanonicalRecord where
  source : PyVal
  source_id : PyVal
  source_url : PyVal
  title : PyVal
  description : PyVal
  price : PyVal
  surface : PyVal
  rooms : PyVal
  bedrooms : PyVal
  city : PyVal
  postal_code : PyVal
  address : PyVal
  latitude : PyVal
  longitude : PyVal
  property_type : PyVal
  energy_class : PyVal
  furnished : PyVal
  images : PyVal
deriving DecidableEq, Repr

/-- The dictionary a canonical record denotes, with the keys in the
order `normalize_listing` emits them. -/
def CanonicalRecord.toDict (c : CanonicalRecord) : Dict :=
  [ ("source", c.source), ("source_id", c.source_id),
    ("source_url", c.source_url), ("title", c.title),
    ("description", c.description), ("price", c.price),
    ("surface", c.surface), ("rooms", c.rooms), ("bedrooms", c.bedrooms),
    ("city", c.city), ("postal_code", c.postal_code),
    ("address", c.address), ("latitude", c.latitude),
    ("longitude", c.longitude), ("property_type", c.property_type),
    ("energy_class", c.energy_class), ("furnished", c.furnished),
    ("images", c.images) ]

/-- Python `setattr(existing, k, v)` for the data columns the
`save_listing` update loop can touch with a canonical record: canonical
records carry exactly the eighteen keys of `canonicalKeys` (see
`normalize_fills_canonical_keys`), all of which are `Listing`
attributes, and never the lifecycle or surrogate keys, so those cases
cannot arise. Keys that are not attributes are skipped by the
`hasattr` guard in the source. -/
def rowSetField (r : Row) (k : String) (v : PyVal) : Row :=
  if k = "source" then { r with source := v }
  else if k = "source_id" then { r with source_id := v }
  else if k = "source_url" then { r with source_url := v }
  else if k = "title" then { r with title := v }
  else if k = "description" then { r with description := v }
  else if k = "price" then { r with price := v }
  else if k = "surface" then { r with surface := v }
  else if k = "rooms" then { r with rooms := v }
  else if k = "bedrooms" then { r with bedrooms := v }
  else if k = "city" then { r with city := v }
  else if k = "postal_code" then { r with postal_code := v }
  else if k = "address" then { r with address := v }
  else if k = "latitude" then { r with latitude := v }
  else if k = "longitude" then { r with longitude := v }
  else if k = "property_type" then { r with property_type := v }
  else if k = "energy_class" then { r with energy_class := v }
  else if k = "furnished" then { r with furnished := v }
  else if k = "images" then { r with images := v }
  else r

/-- The update loop of `save_listing`: `for key, value in
listing_data.items(): if hasattr(existing, key): setattr(existing, key, value)`. -/
def applyItems (r : Row) (d : Dict) : Row :=
  d.foldl (fun row kv => rowSetField row kv.1 kv.2) r

/-- Python `Listing(**listing_data)` for a canonical dictionary followed
by the insert flush: data columns from the dictionary (`None` when the
key is absent, matching the column `NULL` default, except `furnished`
whose column default is `False`), `is_active` defaulting to `True`, and
`first_seen = last_updated = now` from the server defaults. -/
def rowFromDict (d : Dict) (freshId : Nat) (now : Int) : Row :=
  { id := freshId
    source := dictGet d "source"
    source_id := dictGet d "source_id"
    source_url := dictGet d "source_url"
    title := dictGet d "title"
    description := dictGet d "description"
    price := dictGet d "price"
    surface := dictGet d "surface"
    rooms := dictGet d "rooms"
    bedrooms := dictGet d "bedrooms"
    city := dictGet d "city"
    postal_code := dictGet d "postal_code"
    address := dictGet d "address"
    latitude := dictGet d "latitude"
    longitude := dictGet d "longitude"
    property_type := dictGet d "property_type"
    energy_class := dictGet d "energy_class"
    furnished := dictGetD d "furnished" (PyVal.bool false)
    images := dictGet d "images"
    is_active := true
    first_seen := now
    last_updated := now }

/-- The natural-key filter of `save_listing`: `Listing.source ==
listing_data['source'] and Listing.source_id == listing_data['source_id']`. -/
def keyMatches (d : Dict) (r : Row) : Bool :=
  decide (r.source = dictGet d "source" ∧ r.source_id = dictGet d "source_id")

/-- Replacement of the first element satisfying `p` (the ORM mutates the
single entity `.first()` returned; all other rows are untouched). -/
def updateFirst {α : Type} (p : α → Bool) (f : α → α) : List α → List α
  | [] => []
  | r :: rest => if p r then f r :: rest else r :: updateFirst p f rest

/-- ListingService.save_listing (src/app/services/listing_service.py):
looks the natural key up, overwrites every mutable field of the first
match, or inserts a new row with the column defaults.  At commit,
SQLAlchemy's unit of work compares each assigned attribute with its
committed value and emits an UPDATE only when some attribute has a net
change; only then does the `last_updated` column `onupdate` fire.  An
overwrite with no net change therefore leaves the row — including
`last_updated` — untouched.  The database session is the list of rows;
`now` is the flush time and `freshId` the surrogate id the insert would
receive.  The `except` branch (commit failure, rollback, return `None`)
is a storage fault outside this pure model. -/
def save_listing (db : List Row) (listing_data : Dict) (now : Int) (freshId : Nat) :
    List Row × Row :=
  match db.find? (keyMatches listing_data) with
  | some r0 =>
    (updateFirst (keyMatches listing_data)
        (fun r => if applyItems r listing_data = r then r
          else { applyItems r listing_data with last_updated := now }) db,
      if applyItems r0 listing_data = r0 then r0
      else { applyItems r0 listing_data with last_updated := now })
  | Option.none =>
    (db ++ [rowFromDict listing_data freshId now],
      rowFromDict listing_data freshId now)

/-- The staleness filter of `deactivate_old_listings`: same source,
currently active, `last_updated` before `now` minus `days` days
(86400 seconds per day). -/
def staleB (source : String) (now days : Int) (r : Row) : Bool :=
  decide (r.source = PyVal.str source ∧ r.is_active = true ∧
    r.last_updated < now - days * 86400)

/-- ListingService.deactivate_old_listings
(src/app/services/listing_service.py): bulk-updates `is_active` to
`False` on every row of the source that is active and older than the
cutoff, returning the new table and the matched-row count the `update`
call reports. -/
def deactivate_old_listings (db : List Row) (source : String) (now days : Int) :
    List Row × Nat :=
  (db.map (fun r => if staleB source now days r then { r with is_active := false } else r),
    (db.filter (staleB source now days)).length)

/-- Outcome of one adapter `scrape_listings` call: the listings it
returned, or the exception it raised. -/
abbrev FetchResult := Except String (List Dict)

/-- ScraperManager.scrape_all (src/app/scrapers/manager.py): iterates
the registry in insertion order, normalizes and accumulates each
successful adapter result, and on an exception appends a log entry and
continues with the next adapter.  Total: the `except Exception` clause
means the run itself never raises. -/
def scrape_all (registry : List (String × FetchResult)) : List Dict × List String :=
  registry.foldl
    (fun acc entry =>
      match entry.2 with
      | Except.ok listings =>
        (acc.1 ++ listings.map (normalize_listing entry.1), acc.2)
      | Except.error e =>
        (acc.1, acc.2 ++ ["Error scraping " ++ entry.1 ++ ": " ++ e]))
    ([], [])

/-- ScraperManager.scrape_source (src/app/scrapers/manager.py): looks
the source up in the registry (`self.scrapers.get(source)`); when absent
it logs `Unknown source` and returns the empty list; when the adapter
raises it logs and returns the empty list; otherwise it returns the
normalized listings.  No exception is raised on any path. -/
def scrape_source (registry : List (String × FetchResult)) (source : String) :
    List Dict × List String :=
  match registry.find? (fun p => p.1 == source) with
  | Option.none => ([], ["Unknown source: " ++ source])
  | some (_, Except.error e) => ([], ["Error scraping " ++ source ++ ": " ++ e])
  | some (name, Except.ok listings) => (listings.map (normalize_listing name), [])

/-- Lifecycle of the Selenium session one SeLoger run holds. -/
structure SessionState where
  acquired : Bool
  released : Bool
deriving DecidableEq, Repr

/-- Truth of an `Except` being a normal return. -/
def exceptOk {ε α : Type} : Except ε α → Bool
  | Except.ok _ => true
  | Except.error _ => false

/-- Python list `mapM` over fallible card parsing: the first raised
exception aborts the comprehension and propagates. -/
def mapCards {Card R : Type} (parse : Card → Except String (Option R)) :
    List Card → Except String (List (Option R))
  | [] => Except.ok []
  | c :: cs =>
    match parse c with
    | Except.error e => Except.error e
    | Except.ok r =>
      match mapCards parse cs with
      | Except.error e => Except.error e
      | Except.ok rs => Except.ok (r :: rs)

/-- The scrape function of src/app/scrapers/se_loger/se_loger_scraper.py,
abstracted over the outcomes of its effects: `auto` is the autocomplete
response (`None` short-circuits before any driver exists), `enumerate`
the combined `driver.get` plus `find_elements` step, and `parse` the
`card_to_result` call on each card (which may raise an exception other
than the `NoSuchElementException` it catches, or return `None`).  URL
construction is value-level string work irrelevant to the session
lifecycle and is elided.  The driver is created by `webdriver.Firefox`
(acquired) and `driver.close()` is the only release site: it runs only
after enumeration and every parse return normally, since the function
has no `try`/`finally` around the driver. -/
def se_loger_scrape {Card R : Type} (auto : Option (List String))
    (enumerate : Except String (List Card))
    (parse : Card → Except String (Option R)) :
    SessionState × Except String (Option (List (Option R))) :=
  match auto with
  | Option.none => ({ acquired := false, released := false }, Except.ok Option.none)
  | some _ =>
    match enumerate with
    | Except.error e => ({ acquired := true, released := false }, Except.error e)
    | Except.ok cards =>
      match mapCards parse cards with
      | Except.error e => ({ acquired := true, released := false }, Except.error e)
      | Except.ok results =>
        ({ acquired := true, released := true }, Except.ok (some results))

/-- An HTTPException the FastAPI endpoint raises. -/
structure HTTPError where
  status_code : Nat
  detail : String
deriving DecidableEq, Repr

/-- An exception escaping the endpoint body, as the two `except` clauses
of `scrape_properties` distinguish them: a `ValueError`, or anything
else (`KeyError`, Selenium errors, ...), with its `str(e)` text. -/
inductive PyExc where
  | valueError : String → PyExc
  | other : String → PyExc
deriving DecidableEq, Repr

/-- The response body of the `/scrape` endpoint
(src/app/dto/scrape_response.py), over an abstract result-record type. -/
structure ScrapeResponse (α : Type) where
  status : String
  platform : Option String
  count : Nat
  results : List α
  message : Option String
deriving DecidableEq, Repr

/-- The final response shaping of `scrape_properties` (src/app/api.py,
lines 141 to 155): `if results is None or len(results) == 0` yields the
error-status body, otherwise the success body. -/
def shape_response (α : Type) (plateforme : String) (results : Option (List α)) :
    ScrapeResponse α :=
  match results with
  | Option.none =>
    { status := "error", platform := some plateforme, count := 0, results := [],
      message := some "No results found or scraping failed" }
  | some l =>
    if l.length = 0 then
      { status := "error", platform := some plateforme, count := 0, results := [],
        message := some "No results found or scraping failed" }
    else
      { status := "success", platform := some plateforme, count := l.length,
        results := l, message := Option.none }

/-- The exception handlers of `scrape_properties` (src/app/api.py, lines
157 to 168): a `ValueError` becomes a 400 with the error text, and any
other exception becomes a 500 whose detail interpolates `str(e)`. -/
def endpoint_result (α : Type) (body : Except PyExc (ScrapeResponse α)) :
    Except HTTPError (ScrapeResponse α) :=
  match body with
  | Except.ok r => Except.ok r
  | Except.error (PyExc.valueError m) => Except.error { status_code := 400, detail := m }
  | Except.error (PyExc.other m) =>
    Except.error { status_code := 500, detail := "Internal server error: " ++ m }

/-- A concrete canonical record (with an empty `source_id`, as
`normalize_listing` produces when extraction found no id). -/
def sampleRecord : CanonicalRecord :=
  { source := PyVal.str "leboncoin", source_id := PyVal.str "",
    source_url := PyVal.str "https://www.leboncoin.fr/ad", title := PyVal.str "T2 lumineux",
    description := PyVal.str "", price := PyVal.num 800, surface := PyVal.none,
    rooms := PyVal.none, bedrooms := PyVal.none, city := PyVal.str "Rennes",
    postal_code := PyVal.none, address := PyVal.none, latitude := PyVal.none,
    longitude := PyVal.none, property_type := PyVal.none, energy_class := PyVal.none,
    furnished := PyVal.bool false, images := PyVal.str "[]" }

/-- A concrete persisted row of source `leboncoin`, active, last updated
at time 0. -/
def rowA : Row :=
  { id := 1, source := PyVal.str "leboncoin", source_id := PyVal.str "abc",
    source_url := PyVal.str "", title := PyVal.str "", description := PyVal.none,
    price := PyVal.none, surface := PyVal.none, rooms := PyVal.none,
    bedrooms := PyVal.none, city := PyVal.none, postal_code := PyVal.none,
    address := PyVal.none, latitude := PyVal.none, longitude := PyVal.none,
    property_type := PyVal.none, energy_class := PyVal.none,
    furnished := PyVal.bool false, images := PyVal.str "[]",
    is_active := true, first_seen := 0, last_updated := 0 }

/-- A concrete persisted row of another source, also stale-aged. -/
def rowB : Row :=
  { rowA with id := 2, source := PyVal.str "seloger", source_id := PyVal.str "xyz" }

/-- A list whose `find?` comes up empty filters to the empty list. -/
theorem filter_eq_nil_of_find?_eq_none {α : Type} {p : α → Bool} {l : List α}
    (h : l.find? p = Option.none) : l.filter p = [] := by
  induction l with
  | nil => rfl
  | cons a l ih =>
    cases hpa : p a with
    | true => simp [List.find?_cons, hpa] at h
    | false =>
      simp only [List.find?_cons, hpa] at h
      simp [List.filter_cons, hpa, ih h]

/-- When at most one element passes the filter, the element `find?`
returns is the whole filtered list. -/
theorem filter_singleton_of_find? {α : Type} {p : α → Bool} {l : List α} {a : α}
    (h : l.find? p = some a) (hlen : (l.filter p).length ≤ 1) : l.filter p = [a] := by
  induction l with
  | nil => simp [List.find?] at h
  | cons b l ih =>
    cases hpb : p b with
    | true =>
      simp only [List.find?_cons, hpb] at h
      obtain rfl : b = a := by exact Option.some.inj h
      simp only [List.filter_cons, hpb, if_pos] at hlen ⊢
      simp only [List.length_cons] at hlen
      have hnil : l.filter p = [] := List.length_eq_zero.mp (by omega)
      simp [hnil]
    | false =>
      simp only [List.find?_cons, hpb] at h
      simp only [List.filter_cons, hpb] at hlen ⊢
      exact ih h hlen

/-- Conversely a singleton filter determines the result of `find?`. -/
theorem find?_of_filter_singleton {α : Type} {p : α → Bool} {l : List α} {a : α}
    (h : l.filter p = [a]) : l.find? p = some a := by
  induction l with
  | nil => simp at h
  | cons b l ih =>
    cases hpb : p b with
    | true =>
      simp only [List.filter_cons, hpb, if_pos] at h
      obtain ⟨rfl, -⟩ := List.cons.inj h
      simp [List.find?_cons, hpb]
    | false =>
      simp only [List.filter_cons, hpb] at h
      simp only [List.find?_cons, hpb]
      exact ih h

/-- Updating the unique element passing the filter rewrites the filtered
list pointwise, provided the update preserves the filter. -/
theorem filter_updateFirst_singleton {α : Type} (p : α → Bool) (f : α → α)
    {l : List α} {a : α} (h : l.filter p = [a]) (hfa : p (f a) = true) :
    (updateFirst p f l).filter p = [f a] := by
  induction l with
  | nil => simp at h
  | cons b l ih =>
    cases hpb : p b with
    | true =>
      simp only [List.filter_cons, hpb, if_pos] at h
      obtain ⟨rfl, hnil⟩ := List.cons.inj h
      simp [updateFirst, hpb, List.filter_cons, hfa, hnil]
    | false =>
      simp only [List.filter_cons, hpb] at h
      simp [updateFirst, hpb, List.filter_cons, ih h]

/-- When the update fixes the element `find?` returns, `updateFirst`
leaves the whole list unchanged. -/
theorem updateFirst_eq_self {α : Type} (p : α → Bool) (f : α → α)
    {l : List α} {a : α} (h : l.find? p = some a) (hfix : f a = a) :
    updateFirst p f l = l := by
  induction l with
  | nil => simp [List.find?] at h
  | cons b l ih =>
    cases hpb : p b with
    | true =>
      simp only [List.find?_cons, hpb] at h
      obtain rfl : b = a := Option.some.inj h
      simp [updateFirst, hpb, hfix]
    | false =>
      simp only [List.find?_cons, hpb] at h
      simp [updateFirst, hpb, ih h]

/-- The updated image of the element `find?` returns is a member of the
updated list. -/
theorem mem_updateFirst_of_find? {α : Type} (p : α → Bool) (f : α → α)
    {l : List α} {a : α} (h : l.find? p = some a) : f a ∈ updateFirst p f l := by
  induction l with
  | nil => simp [List.find?] at h
  | cons b l ih =>
    cases hpb : p b with
    | true =>
      simp only [List.find?_cons, hpb] at h
      obtain rfl : b = a := Option.some.inj h
      simp [updateFirst, hpb]
    | false =>
      simp only [List.find?_cons, hpb] at h
      simp [updateFirst, hpb, ih h]

/-- An update of a row with a canonical record still matches that
record's natural key. -/
theorem keyMatches_update (c : CanonicalRecord) (r : Row) (t : Int) :
    keyMatches c.toDict { applyItems r c.toDict with last_updated := t } = true := by
  have h1 : (applyItems r c.toDict).source = dictGet c.toDict "source" := by
    cases r
    rfl
  have h2 : (applyItems r c.toDict).source_id = dictGet c.toDict "source_id" := by
    cases r
    rfl
  simp [keyMatches, h1, h2]

/-- A freshly inserted row matches the natural key of the record it came
from. -/
theorem keyMatches_rowFromDict (c : CanonicalRecord) (fid : Nat) (t : Int) :
    keyMatches c.toDict (rowFromDict c.toDict fid t) = true := by
  simp [keyMatches]
  exact ⟨rfl, rfl⟩

/-- After one upsert of a canonical record into a table holding at most
one row for its natural key, exactly one row matches the key, and that
row fully absorbs a further overwrite with the same record: every data
column already holds the record's value, so a second identical save has
no net change. -/
theorem save_listing_filter (db : List Row) (c : CanonicalRecord) (t : Int) (fid : Nat)
    (huniq : ((db.filter (keyMatches c.toDict)).length ≤ 1)) :
    ∃ r1, ((save_listing db c.toDict t fid).1.filter (keyMatches c.toDict)) = [r1] ∧
      applyItems r1 c.toDict = r1 := by
  cases hfind : db.find? (keyMatches c.toDict) with
  | none =>
    refine ⟨rowFromDict c.toDict fid t, ?_, ?_⟩
    · simp only [save_listing, hfind]
      rw [List.filter_append, filter_eq_nil_of_find?_eq_none hfind]
      simp [keyMatches_rowFromDict]
    · rfl
  | some r0 =>
    by_cases hch : applyItems r0 c.toDict = r0
    · refine ⟨r0, ?_, hch⟩
      simp only [save_listing, hfind]
      have hfix : (fun r => if applyItems r c.toDict = r then r
          else { applyItems r c.toDict with last_updated := t }) r0 = r0 := by
        show (if applyItems r0 c.toDict = r0 then r0
          else { applyItems r0 c.toDict with last_updated := t }) = r0
        rw [if_pos hch]
      rw [updateFirst_eq_self (keyMatches c.toDict)
        (fun r => if applyItems r c.toDict = r then r
          else { applyItems r c.toDict with last_updated := t }) hfind hfix]
      exact filter_singleton_of_find? hfind huniq
    · refine ⟨{ applyItems r0 c.toDict with last_updated := t }, ?_, ?_⟩
      · simp only [save_listing, hfind]
        have heq : (fun r => if applyItems r c.toDict = r then r
            else { applyItems r c.toDict with last_updated := t }) r0
            = { applyItems r0 c.toDict with last_updated := t } := by
          show (if applyItems r0 c.toDict = r0 then r0
            else { applyItems r0 c.toDict with last_updated := t })
            = { applyItems r0 c.toDict with last_updated := t }
          rw [if_neg hch]
        have hfa : keyMatches c.toDict ((fun r => if applyItems r c.toDict = r then r
            else { applyItems r c.toDict with last_updated := t }) r0) = true := by
          rw [heq]
          exact keyMatches_update c r0 t
        have hf := filter_updateFirst_singleton (keyMatches c.toDict)
          (fun r => if applyItems r c.toDict = r then r
            else { applyItems r c.toDict with last_updated := t })
          (filter_singleton_of_find? hfind huniq) hfa
        rw [heq] at hf
        exact hf
      · cases r0
        rfl

/-- C1, counterexample: saving the identical record a second time (at
time 5, after a first save at time 0) does not refresh `last_updated` —
the overwrite produces no net change, SQLAlchemy emits no UPDATE, the
`onupdate` never fires, and the single persisted row keeps
`last_updated = 0`, not the second call's time 5. -/
theorem identical_resave_last_updated_unchanged :
    ((save_listing (save_listing [] sampleRecord.toDict 0 1).1 sampleRecord.toDict 5 2).1.map
        Row.last_updated) = [0] ∧
    ((save_listing (save_listing [] sampleRecord.toDict 0 1).1 sampleRecord.toDict 5 2).1.map
        Row.last_updated) ≠ [5] := by
  refine ⟨rfl, by decide⟩

/-- C1, amended: for every valid canonical listing record and every
table holding at most one row per natural key (the unique index on
`(source, source_id)`), calling `save_listing` twice with the identical
record leaves exactly one persisted row for the natural key, and the
second call leaves the table exactly as after the first call — same
`first_seen`, no drift in any other field, and also the same
`last_updated`: the identical overwrite has no net change, so no UPDATE
is emitted and the `onupdate` refresh does not fire. -/
theorem save_listing_idempotent (db : List Row) (c : CanonicalRecord)
    (t1 t2 : Int) (id1 id2 : Nat)
    (huniq : ((db.filter (keyMatches c.toDict)).length ≤ 1)) :
    (save_listing (save_listing db c.toDict t1 id1).1 c.toDict t2 id2).1
      = (save_listing db c.toDict t1 id1).1 ∧
    ((save_listing db c.toDict t1 id1).1.filter (keyMatches c.toDict)).length = 1 := by
  obtain ⟨r1, hf1, habs⟩ := save_listing_filter db c t1 id1 huniq
  have hfind1 : (save_listing db c.toDict t1 id1).1.find? (keyMatches c.toDict)
      = some r1 := find?_of_filter_singleton hf1
  generalize hg : (save_listing db c.toDict t1 id1).1 = db1 at hf1 hfind1 ⊢
  have h2 : (save_listing db1 c.toDict t2 id2).1
      = updateFirst (keyMatches c.toDict)
          (fun r => if applyItems r c.toDict = r then r
            else { applyItems r c.toDict with last_updated := t2 }) db1 := by
    simp only [save_listing, hfind1]
  refine ⟨?_, by rw [hf1]; rfl⟩
  rw [h2]
  have hfix1 : (fun r => if applyItems r c.toDict = r then r
      else { applyItems r c.toDict with last_updated := t2 }) r1 = r1 := by
    show (if applyItems r1 c.toDict = r1 then r1
      else { applyItems r1 c.toDict with last_updated := t2 }) = r1
    rw [if_pos habs]
  exact updateFirst_eq_self (keyMatches c.toDict)
    (fun r => if applyItems r c.toDict = r then r
      else { applyItems r c.toDict with last_updated := t2 }) hfind1 hfix1

/-- Witness for C1 at a concrete record and the empty table: the second
identical upsert is a no-op on the table, which holds one row for the
key. -/
theorem save_listing_idempotent_witness :
    (save_listing (save_listing [] sampleRecord.toDict 0 1).1 sampleRecord.toDict 5 2).1
      = (save_listing [] sampleRecord.toDict 0 1).1 ∧
    ((save_listing [] sampleRecord.toDict 0 1).1.filter
        (keyMatches sampleRecord.toDict)).length = 1 :=
  save_listing_idempotent [] sampleRecord 0 5 1 2 (by decide)

/-- C2, counterexample: `normalize_listing` does not return every
canonical schema key — its output on the empty record contains neither a
`charges_included` key nor an `is_active` key, so neither is defaulted
to anything. -/
theorem normalize_missing_lifecycle_keys :
    ¬("charges_included" ∈ dictKeys (normalize_listing "leboncoin" [])) ∧
    ¬("is_active" ∈ dictKeys (normalize_listing "leboncoin" [])) := by
  decide

/-- C2, amended: for every record with any subset of keys missing,
`normalize_listing` returns (it is total, so it cannot throw) a record
with exactly the eighteen canonical data keys; every key missing from
the input gets the default value, and the defaults are the empty string
for the string fields, `None` for the optional fields, `False` for
`furnished` and the string `"[]"` for `images`.  The keys
`charges_included` and `is_active` are not emitted (`is_active` defaults
to `True` only at the persistence layer). -/
theorem normalize_fills_canonical_keys (n : String) :
    (∀ listing : Dict, dictKeys (normalize_listing n listing) = canonicalKeys) ∧
    (∀ listing : Dict, ∀ k ∈ canonicalKeys, dictGet? listing k = Option.none →
      dictGet? (normalize_listing n listing) k = dictGet? (normalize_listing n []) k) ∧
    normalize_listing n []
      = [ ("source", PyVal.str n), ("source_id", PyVal.str ""),
          ("source_url", PyVal.str ""), ("title", PyVal.str ""),
          ("description", PyVal.str ""), ("price", PyVal.none),
          ("surface", PyVal.none), ("rooms", PyVal.none),
          ("bedrooms", PyVal.none), ("city", PyVal.none),
          ("postal_code", PyVal.none), ("address", PyVal.none),
          ("latitude", PyVal.none), ("longitude", PyVal.none),
          ("property_type", PyVal.none), ("energy_class", PyVal.none),
          ("furnished", PyVal.bool false), ("images", PyVal.str "[]") ] ∧
    ¬("charges_included" ∈ canonicalKeys) ∧ ¬("is_active" ∈ canonicalKeys) := by
  refine ⟨fun listing => rfl, ?_, rfl, by decide, by decide⟩
  intro listing k hmem hk
  simp only [canonicalKeys, List.mem_cons, List.not_mem_nil, or_false] at hmem
  rcases hmem with rfl|rfl|rfl|rfl|rfl|rfl|rfl|rfl|rfl|rfl|rfl|rfl|rfl|rfl|rfl|rfl|rfl|rfl <;>
    simp [normalize_listing, dictGet?, dictGetD, dictGet, hk]

/-- Witness for C2 at a concrete record missing the `furnished` key: the
output holds the default `False` for it, as in the all-defaults record. -/
theorem normalize_fills_canonical_keys_witness :
    dictGet? [("title", PyVal.str "studio")] "furnished" = Option.none ∧
    dictGet? (normalize_listing "leboncoin" [("title", PyVal.str "studio")]) "furnished"
      = dictGet? (normalize_listing "leboncoin" []) "furnished" :=
  ⟨by decide, (normalize_fills_canonical_keys "leboncoin").2.1
    [("title", PyVal.str "studio")] "furnished" (by decide) (by decide)⟩

/-- C3, counterexample: the Leboncoin price extractor does not map
`"500€/mois"` to `500.0` — it strips only the euro sign, spaces and
commas, so `float("500/mois")` raises and the function returns `None`. -/
theorem leboncoin_price_mois_not_500 :
    leboncoin_extract_price "500€/mois" = Option.none ∧
    leboncoin_extract_price "500€/mois" ≠ some 500 := by
  constructor
  · decide
  · decide

/-- C3, amended: both extractors map `"1 234 €"` to `1234.0` and the
unparsable `"Prix sur demande"` to `None` without raising (they are
total functions); `"500€/mois"` yields `500.0` under the Carte-Coloc
extractor, which strips the `/mois` suffix, but `None` under the
Leboncoin extractor, which does not. -/
theorem extract_price_values :
    leboncoin_extract_price "1 234 €" = some 1234 ∧
    carte_coloc_extract_price "1 234 €" = some 1234 ∧
    carte_coloc_extract_price "500€/mois" = some 500 ∧
    leboncoin_extract_price "500€/mois" = Option.none ∧
    leboncoin_extract_price "Prix sur demande" = Option.none ∧
    carte_coloc_extract_price "Prix sur demande" = Option.none := by
  refine ⟨by decide, by decide, by decide, by decide, by decide, by decide⟩

/-- C4: when adapter A's fetch raises (any exception, which covers a
fetch failure) and adapter B succeeds with 3 listings, `scrape_all` —
which is total, so the run itself never raises — logs A's failure,
continues to B, and returns exactly B's 3 listings (normalized). -/
theorem scrape_all_isolates_failures (e : String) (l1 l2 l3 : Dict) :
    (scrape_all [("A", Except.error e), ("B", Except.ok [l1, l2, l3])]).1
      = [normalize_listing "B" l1, normalize_listing "B" l2, normalize_listing "B" l3] ∧
    (scrape_all [("A", Except.error e), ("B", Except.ok [l1, l2, l3])]).1.length = 3 ∧
    (scrape_all [("A", Except.error e), ("B", Except.ok [l1, l2, l3])]).2
      = ["Error scraping A: " ++ e] := by
  refine ⟨rfl, rfl, rfl⟩

/-- C5, counterexample: dispatching a run for a source name missing from
the actual registry does not fail — `scrape_source` returns the normal
result `[]` (with a log line); no `UnknownSourceError` exists anywhere
in the code. -/
theorem unknown_source_returns_empty :
    scrape_source
        [("leboncoin", Except.ok []), ("seloger", Except.ok []), ("carte_coloc", Except.ok [])]
        "toto"
      = ([], ["Unknown source: toto"]) := rfl

/-- C5, amended: for every source name not present in the registry,
`scrape_source` logs `Unknown source` and returns the empty listing
list — a normal result, not an error. -/
theorem scrape_source_unknown_empty (registry : List (String × FetchResult))
    (source : String)
    (habsent : registry.find? (fun p => p.1 == source) = Option.none) :
    scrape_source registry source = ([], ["Unknown source: " ++ source]) := by
  simp only [scrape_source, habsent]

/-- Witness for C5 on the registry of the three registered sources and
an unregistered name. -/
theorem scrape_source_unknown_empty_witness :
    scrape_source
        [("leboncoin", Except.ok [[("title", PyVal.str "a")]]), ("seloger", Except.ok []),
          ("carte_coloc", Except.ok [])]
        "espacil"
      = ([], ["Unknown source: espacil"]) :=
  scrape_source_unknown_empty
    [("leboncoin", Except.ok [[("title", PyVal.str "a")]]), ("seloger", Except.ok []),
      ("carte_coloc", Except.ok [])]
    "espacil" rfl

/-- C6: for every table, source and staleness threshold,
`deactivate_old_listings` deletes no rows (the length is unchanged),
flips `is_active` to false for exactly those rows of that source that
are active and whose `last_updated` predates `now` minus the threshold,
leaves every other row — in particular every row of another source —
unchanged, and reports the number of flipped rows. -/
theorem deactivate_stale_spec (db : List Row) (source : String) (now days : Int) :
    ((deactivate_old_listings db source now days).1.length = db.length) ∧
    (∀ i : Nat, ∀ r : Row, db[i]? = some r →
      (deactivate_old_listings db source now days).1[i]?
        = some (if staleB source now days r then { r with is_active := false } else r)) ∧
    ((deactivate_old_listings db source now days).2
      = (db.filter (staleB source now days)).length) ∧
    (∀ i : Nat, ∀ r : Row, db[i]? = some r → ¬(r.source = PyVal.str source) →
      (deactivate_old_listings db source now days).1[i]? = some r) := by
  refine ⟨by simp [deactivate_old_listings], ?_, rfl, ?_⟩
  · intro i r h
    simp [deactivate_old_listings, List.getElem?_map, h]
  · intro i r h hs
    have hfalse : staleB source now days r = false := by
      simp [staleB, hs]
    simp [deactivate_old_listings, List.getElem?_map, h, hfalse]

/-- Witness for C6 on a two-row table: the stale `leboncoin` row is
flipped, the row of the other source is untouched, nothing is deleted,
and the reported count is 1. -/
theorem deactivate_stale_spec_witness :
    ((deactivate_old_listings [rowA, rowB] "leboncoin" 700000 7).1.length = 2) ∧
    ((deactivate_old_listings [rowA, rowB] "leboncoin" 700000 7).1[0]?
      = some { rowA with is_active := false }) ∧
    ((deactivate_old_listings [rowA, rowB] "leboncoin" 700000 7).1[1]? = some rowB) ∧
    ((deactivate_old_listings [rowA, rowB] "leboncoin" 700000 7).2 = 1) := by
  have h := deactivate_stale_spec [rowA, rowB] "leboncoin" 700000 7
  refine ⟨h.1, ?_, ?_, ?_⟩
  · have h0 := h.2.1 0 rowA rfl
    rwa [if_pos (by decide)] at h0
  · exact h.2.2.2 1 rowB rfl (by decide)
  · rw [h.2.2.1]
    decide

/-- C7, counterexample: a canonical record whose extraction produced an
empty `source_id` (here: `normalize_listing` of the empty record) is not
dropped — `save_listing` persists it, leaving a row whose `source_id` is
the empty string. -/
theorem empty_source_id_persisted :
    ((save_listing [] (normalize_listing "leboncoin" []) 0 1).1.map Row.source_id)
      = [PyVal.str ""] := rfl

/-- C7, amended: `save_listing` performs no `source_id` validation — for
every table and every canonical record with an empty `source_id`, the
upsert writes a row with an empty `source_id` into the table, so the
invariant that no persisted row has an empty `source_id` does not hold. -/
theorem save_listing_no_sid_validation (db : List Row) (c : CanonicalRecord)
    (t : Int) (fid : Nat) (hsid : c.source_id = PyVal.str "") :
    ∃ r ∈ (save_listing db c.toDict t fid).1, r.source_id = PyVal.str "" := by
  cases hfind : db.find? (keyMatches c.toDict) with
  | none =>
    refine ⟨rowFromDict c.toDict fid t, ?_, ?_⟩
    · simp [save_listing, hfind]
    · show dictGet c.toDict "source_id" = PyVal.str ""
      simpa using hsid
  | some r0 =>
    have hsid0 : (applyItems r0 c.toDict).source_id = c.source_id := by
      cases r0
      rfl
    refine ⟨(fun r => if applyItems r c.toDict = r then r
        else { applyItems r c.toDict with last_updated := t }) r0, ?_, ?_⟩
    · simp only [save_listing, hfind]
      exact mem_updateFirst_of_find? (keyMatches c.toDict)
        (fun r => if applyItems r c.toDict = r then r
          else { applyItems r c.toDict with last_updated := t }) hfind
    · show (if applyItems r0 c.toDict = r0 then r0
        else { applyItems r0 c.toDict with last_updated := t }).source_id = PyVal.str ""
      by_cases hch : applyItems r0 c.toDict = r0
      · rw [if_pos hch]
        have hr0 : r0.source_id = (applyItems r0 c.toDict).source_id :=
          (congrArg Row.source_id hch).symm
        rw [hr0, hsid0]
        exact hsid
      · rw [if_neg hch]
        show (applyItems r0 c.toDict).source_id = PyVal.str ""
        rw [hsid0]
        exact hsid

/-- Witness for C7 with a concrete record whose `source_id` is empty and
the empty table. -/
theorem save_listing_no_sid_validation_witness :
    ∃ r ∈ (save_listing [] sampleRecord.toDict 0 1).1, r.source_id = PyVal.str "" :=
  save_listing_no_sid_validation [] sampleRecord 0 1 rfl

/-- C8, counterexample: in a SeLoger run where autocomplete succeeded
(so a rendering session was acquired) and element enumeration raises,
the session is not released — the function has no `try`/`finally`, so
the exception skips `driver.close()`. -/
theorem seloger_driver_leak_on_enum_error :
    (se_loger_scrape (some []) (Except.error "WebDriverException")
        (fun _ : Unit => Except.ok (Option.none : Option Unit))).1
      = { acquired := true, released := false } := rfl

/-- C8, amended: the rendering session is acquired exactly when
autocomplete succeeds, and it is released exactly on the normal exit
path — when enumeration and every fragment parse return without raising;
on the raising exit paths the acquired session is never released. -/
theorem seloger_release_iff_success {Card R : Type} (auto : Option (List String))
    (en : Except String (List Card)) (pa : Card → Except String (Option R)) :
    ((se_loger_scrape auto en pa).1.acquired = auto.isSome) ∧
    ((se_loger_scrape auto en pa).1.released = true ↔
      ((se_loger_scrape auto en pa).1.acquired = true ∧
        exceptOk (se_loger_scrape auto en pa).2 = true)) := by
  cases auto with
  | none => simp [se_loger_scrape, exceptOk]
  | some ids =>
    cases en with
    | error e => simp [se_loger_scrape, exceptOk]
    | ok cards =>
      cases h : mapCards pa cards with
      | error e => simp [se_loger_scrape, exceptOk, h]
      | ok rs => simp [se_loger_scrape, exceptOk, h]

/-- C9, counterexample: the server-error response does contain and does
depend on the raw internal exception text — a secret in the exception
message reappears verbatim in the client-visible detail, and two
different internal exceptions produce two different responses. -/
theorem internal_error_leaks_detail :
    (endpoint_result Unit (Except.error (PyExc.other "db password hunter2"))
      = Except.error
          { status_code := 500,
            detail := "Internal server error: db password hunter2" }) ∧
    endpoint_result Unit (Except.error (PyExc.other "a"))
      ≠ endpoint_result Unit (Except.error (PyExc.other "b")) := by
  refine ⟨rfl, by simp [endpoint_result]⟩

/-- C9, amended: for every unhandled internal exception, the
server-error response is a 500 whose detail is a fixed prefix followed
by the raw exception text — the internal text is exposed to the client,
not redacted. -/
theorem internal_error_detail_contains_exception (α : Type) (m : String) :
    ∃ pre : String, endpoint_result α (Except.error (PyExc.other m))
      = Except.error { status_code := 500, detail := pre ++ m } :=
  ⟨"Internal server error: ", rfl⟩

/-- C10: a request whose scraping step yields a null (failed) result and
one that yields zero results receive the identical response: status
`error`, count 0, empty results (and the same message) — the two cases
are indistinguishable to the client. -/
theorem scrape_zero_indistinguishable_from_failure (α : Type) (p : String) :
    shape_response α p Option.none
      = { status := "error", platform := some p, count := 0, results := [],
          message := some "No results found or scraping failed" } ∧
    shape_response α p (some []) = shape_response α p Option.none := by
  refine ⟨rfl, rfl⟩

end Webown
